import Mathlib

/-!
Shallow embedding of the vm-provisioning-api-server repository (Go).

The embedding models the pure/logical content of the handlers in
`src/internal/api/handlers.go` together with the `utils` helper functions
that share that file, and — for the comparison claim — the historical
validator copy in `src/main.go`. Conventions:

* Byte strings are Lean `String`s; `bytes.Split`/`bytes.Fields` are modelled
  over `String.data : List Char` (ASCII whitespace approximates
  `unicode.IsSpace`, which is all the tool output uses).
* The CSV ledger `provisioned_vms.csv` is modelled at the record level as a
  `List (List String)` (Go's `csv.Reader.ReadAll` / `csv.Writer.Write`
  round-trip fields faithfully); an absent file is `Option.none`.
* The file system touched by temp-file staging is an existence predicate
  `String → Bool`; external-command outcomes (ignite run/ps/stop/rm, I/O
  errors) are explicit oracle parameters, since the Go code only branches
  on success/failure and on the captured stdout.
* A Go runtime panic (index out of range) is modelled as an explicit
  result constructor, never as a default value.
-/

/-- ASCII whitespace, the fragment of Go `unicode.IsSpace` relevant to
`bytes.Fields` on `ignite ps` output. -/
def isSpaceChar (c : Char) : Bool :=
  c = ' ' || c = '\t' || c = '\n' || c = '\r'

/-- Split a character list at every separator recognised by `p`, keeping
empty chunks — the shape shared by Go `bytes.Split` (with `p` matching the
separator byte) and the first phase of `bytes.Fields`. -/
def splitBy (p : Char → Bool) : List Char → List (List Char)
  | [] => [[]]
  | c :: cs =>
    match splitBy p cs with
    | [] => [[c]]
    | w :: ws => if p c then [] :: w :: ws else (c :: w) :: ws

/-- Go `bytes.Fields`: maximal runs of non-whitespace characters. -/
def fieldsOf (line : List Char) : List (List Char) :=
  (splitBy isSpaceChar line).filter (fun w => !w.isEmpty)

/-- `startsWithSeq needle hay`: `needle` is an initial segment of `hay`. -/
def startsWithSeq : List Char → List Char → Bool
  | [], _ => true
  | _ :: _, [] => false
  | a :: as, b :: bs => a = b && startsWithSeq as bs

/-- Go `bytes.Contains`: `needle` occurs contiguously inside `hay`. -/
def containsSeq (needle : List Char) : List Char → Bool
  | [] => startsWithSeq needle []
  | c :: rest => startsWithSeq needle (c :: rest) || containsSeq needle rest

/-- Outcome of `GetMasterIP`'s parse of the `ignite ps` stdout.
`indexOutOfRange` is the Go runtime panic raised by `fields[12]` when the
slice has exactly 12 elements; `notFound` is the
`IP address for node ... not found` error. -/
inductive IPResult where
  | ok (ip : String)
  | indexOutOfRange
  | notFound
deriving DecidableEq, Repr

/-- The loop of `GetMasterIP` (`handlers.go` utils part, lines 315–323, and
identically `getMasterIP` in `main.go`): scan lines in order; on the first
line containing the node name whose field count is at least 12, evaluate
`fields[12]` — which panics when the count is exactly 12; lines with fewer
than 12 fields are skipped. -/
def findIPLine (nodeName : List Char) : List (List Char) → IPResult
  | [] => .notFound
  | line :: rest =>
    if containsSeq nodeName line then
      let fields := fieldsOf line
      if 12 ≤ fields.length then
        match fields.get? 12 with
        | some f => .ok (String.mk f)
        | none => .indexOutOfRange
      else findIPLine nodeName rest
    else findIPLine nodeName rest

/-- `GetMasterIP` with the captured `ignite ps` stdout passed explicitly
(in the source it is produced by running the command). -/
def GetMasterIP (nodeName : String) (rawOutput : String) : IPResult :=
  findIPLine nodeName.data (splitBy (fun c => c = '\n') rawOutput.data)

/-- The row loop of `ValidateTokenAndMasterIP` (`handlers.go`, lines
353–359): `record[i]? = some x` is exactly Go's
`len(record) >= i+1 && record[i] == x`; on an inner mismatch the loop moves
to the next record. The token is compared at column index 4. -/
def scanRecords (token masterIP : String) : List (List String) → Bool
  | [] => false
  | record :: rest =>
    if record[2]? = some masterIP then
      if record[4]? = some token then true
      else scanRecords token masterIP rest
    else scanRecords token masterIP rest

/-- `ValidateTokenAndMasterIP` (`handlers.go`, lines 338–362): opening a
missing (or unreadable) CSV file returns `false`, otherwise scan all
records. -/
def ValidateTokenAndMasterIP (token masterIP : String)
    (file : Option (List (List String))) : Bool :=
  match file with
  | none => false
  | some records => scanRecords token masterIP records

/-- The row loop of the historical copy `validateTokenAndMasterIP` in
`main.go` (lines 545–552): same masterIP test, but the token is compared at
column index 3 (`len(record) >= 4 && record[3] == token`). -/
def scanRecordsMain (token masterIP : String) : List (List String) → Bool
  | [] => false
  | record :: rest =>
    if record[2]? = some masterIP then
      if record[3]? = some token then true
      else scanRecordsMain token masterIP rest
    else scanRecordsMain token masterIP rest

/-- `validateTokenAndMasterIP` (`main.go`, lines 530–555). -/
def validateTokenAndMasterIP (token masterIP : String)
    (file : Option (List (List String))) : Bool :=
  match file with
  | none => false
  | some records => scanRecordsMain token masterIP records

/-- The header row written by `StoreProvisionInfo` when the file is empty. -/
def csvHeaders : List String :=
  ["NodeName", "NodeUID", "MasterIP", "NodeType", "Token"]

/-- `StoreProvisionInfo` (`handlers.go` utils part, lines 239–267) at the
record level: open for append (creating an empty table when absent — so the
absent and empty cases coincide here), write the header row iff the table
is empty, then append the record row. -/
def StoreProvisionInfo (nodeName nodeUID masterIP nodeType token : String)
    (table : List (List String)) : List (List String) :=
  (if table.isEmpty then [csvHeaders] else table) ++
    [[nodeName, nodeUID, masterIP, nodeType, token]]

/-- A provision record as stored in the ledger (spec §3 ProvisionRecord). -/
structure ProvisionRecord where
  nodeName : String
  nodeUID : String
  masterIP : String
  nodeType : String
  token : String
deriving DecidableEq, Repr

/-- The CSV row `StoreProvisionInfo` writes for a record. -/
def toRow (r : ProvisionRecord) : List String :=
  [r.nodeName, r.nodeUID, r.masterIP, r.nodeType, r.token]

/-- Iterated `StoreProvisionInfo`, one call per record, in order. -/
def storeAll (rs : List ProvisionRecord) (table : List (List String)) :
    List (List String) :=
  rs.foldl
    (fun t r => StoreProvisionInfo r.nodeName r.nodeUID r.masterIP r.nodeType r.token t)
    table

/-- `models.ProvisionRequest` (`src/internal/models/models.go`). `cpus` is a
Go `int`, modelled as `Int`. -/
structure ProvisionRequest where
  nodeName : String
  nodeUID : String
  nodeType : String
  token : String
  masterIP : String
  cpus : Int
  diskSize : String
  memory : String
  imageOCI : String
  enableSSH : Bool
deriving DecidableEq, Repr

/-- `Manifest.Metadata` (`src/internal/config/types.go`). -/
structure ManifestMetadata where
  name : String
  uid : String
deriving DecidableEq, Repr

/-- `Manifest.Spec` (`src/internal/config/types.go`). `image` models the Go
`map[string]string` by its entry list; `copyFiles` the `(hostPath, vmPath)`
pairs. -/
structure ManifestSpec where
  image : List (String × String)
  cpus : Int
  diskSize : String
  memory : String
  copyFiles : List (String × String)
  ssh : Bool
deriving DecidableEq, Repr

/-- `Manifest` (`src/internal/config/types.go`). -/
structure Manifest where
  apiVersion : String
  kind : String
  metadata : ManifestMetadata
  spec : ManifestSpec
deriving DecidableEq, Repr

/-- `createManifest` (`handlers.go`, lines 166–200): fixed apiVersion/kind,
metadata from the request, and each spec field defaulted exactly as the
source does (`cpus <= 0` → 2, empty strings → "3GB"/"1GB"/default image);
`copyFiles` is left empty — the caller fills it in after staging. The Go
zero/assignment sequence always terminates with every field set, so the
builder is total. -/
def createManifest (request : ProvisionRequest) : Manifest :=
  let cpus := if request.cpus ≤ 0 then 2 else request.cpus
  let diskSize := if request.diskSize = "" then "3GB" else request.diskSize
  let memory := if request.memory = "" then "1GB" else request.memory
  let imageOCI :=
    if request.imageOCI = "" then "shajalahamedcse/only-k3-go:v1.0.10"
    else request.imageOCI
  { apiVersion := "ignite.weave.works/v1alpha4"
    kind := "VM"
    metadata := { name := request.nodeName, uid := request.nodeUID }
    spec :=
      { image := [("oci", imageOCI)]
        cpus := cpus
        diskSize := diskSize
        memory := memory
        copyFiles := []
        ssh := request.enableSSH } }

/-- `validateProvisionRequest` (`handlers.go`, lines 143–154). The ledger
file is the `file` parameter (read by `ValidateTokenAndMasterIP`); the three
early-return `if`s become an `if`-chain. -/
def validateProvisionRequest (request : ProvisionRequest) (nodeType : String)
    (file : Option (List (List String))) : Except String Unit :=
  if request.nodeName = "" ∨ request.nodeUID = "" then
    .error "NodeName and NodeUID are required fields"
  else if nodeType = "worker" ∧ (request.masterIP = "" ∨ request.nodeType ≠ "worker") then
    .error "NodeName, NodeUID, MasterIP, and NodeType 'worker' are required fields"
  else if nodeType = "worker" ∧ ValidateTokenAndMasterIP request.token request.masterIP file = false then
    .error "Token and MasterIP do not match any existing records"
  else
    .ok ()

/-- One observable external effect of a handler: an ignite subcommand, or a
ledger access (the deletion handler performs none of the latter). -/
inductive Effect where
  | igniteCmd (action : String) (name : String)
  | storeRead
  | storeWrite
deriving DecidableEq, Repr

/-- `RunIgniteCommand` (`handlers.go` utils part, lines 329–335): `none` on
success, otherwise the formatted error string (`cause` is the `exec` error
text). -/
def RunIgniteCommand (action _vmName : String) (ok : Bool) (cause : String) :
    Option String :=
  if ok then none
  else some ("Failed to " ++ action ++ " VM: " ++ cause)

/-- A handler JSON reply: HTTP status, `success`, and the `message` or
`error` string field (empty when the source omits the field). -/
structure HandlerReply where
  status : Nat
  success : Bool
  message : String
  errorDetail : String
deriving DecidableEq, Repr

/-- `DeleteVMHandler` (`handlers.go`, lines 113–140) with the two ignite
outcomes as oracles, returning the reply together with the trace of
external effects in order. -/
def DeleteVMHandler (vmName : String) (stopOk rmOk : Bool)
    (stopCause rmCause : String) : HandlerReply × List Effect :=
  if vmName = "" then
    ({ status := 400, success := false, message := ""
       errorDetail := "VM name is required" }, [])
  else
    match RunIgniteCommand "stop" vmName stopOk stopCause with
    | some err =>
      ({ status := 500, success := false, message := ""
         errorDetail := "Failed to stop VM: " ++ err },
       [.igniteCmd "stop" vmName])
    | none =>
      match RunIgniteCommand "rm" vmName rmOk rmCause with
      | some err =>
        ({ status := 500, success := false, message := ""
           errorDetail := "Failed to remove VM: " ++ err },
         [.igniteCmd "stop" vmName, .igniteCmd "rm" vmName])
      | none =>
        ({ status := 200, success := true
           message := "VM '" ++ vmName ++ "' successfully deleted"
           errorDetail := "" },
         [.igniteCmd "stop" vmName, .igniteCmd "rm" vmName])

/-- Local storage as an existence predicate over paths. -/
def FS := String → Bool

/-- File creation (`os.CreateTemp` having produced `p`). -/
def fsCreate (p : String) (fs : FS) : FS :=
  fun q => if q = p then true else fs q

/-- `os.Remove p`. -/
def fsRemove (p : String) (fs : FS) : FS :=
  fun q => if q = p then false else fs q

/-- Which step of `WriteTempFile` fails, if any. -/
inductive WriteOutcome where
  | createFail
  | writeFail
  | closeFail
  | ok
deriving DecidableEq, Repr

/-- `WriteTempFile` (`handlers.go` utils part, lines 218–236) with the
fresh temp path and the failing step as oracles: when `os.CreateTemp`
itself fails nothing is created; when the write or the close fails the
already-created file is removed before returning the error; on success the
file exists and its name is returned. -/
def WriteTempFile (path : String) (outcome : WriteOutcome) (fs : FS) :
    Option String × FS :=
  match outcome with
  | .createFail => (none, fs)
  | .writeFail => (none, fsRemove path (fsCreate path fs))
  | .closeFail => (none, fsRemove path (fsCreate path fs))
  | .ok => (some path, fsCreate path fs)

/-- The oracle outcomes of the effectful steps of `ProvisionHandler`: the
two staged temp paths and their write outcomes, whether `ignite run`
succeeds, the `ignite ps` stdout (`none` = the command failed), and whether
the ledger append succeeds. -/
structure ProvisionEnv where
  configPath : String
  configOutcome : WriteOutcome
  manifestPath : String
  manifestOutcome : WriteOutcome
  igniteOk : Bool
  psOutput : Option String
  storeOk : Bool

/-- How a `ProvisionHandler` execution ends: an HTTP reply, or a Go runtime
panic (the index-out-of-range in `GetMasterIP`); deferred removals run in
both cases. -/
inductive HandlerOutcome where
  | respond (status : Nat) (success : Bool)
  | panicked
deriving DecidableEq, Repr

/-- The post-staging steps of `ProvisionHandler` (`handlers.go`, lines
77–109): `RunIgnite`, `GetMasterIP` over the `ignite ps` stdout, and
`StoreProvisionInfo`. None of these touches the staged files, so they are
modelled as producing the handler outcome alone; an index-out-of-range in
`GetMasterIP` ends the handler in a panic. -/
def provisionTail (nodeName : String) (env : ProvisionEnv) : HandlerOutcome :=
  if env.igniteOk = false then .respond 500 false
  else
    match env.psOutput with
    | none => .respond 500 false
    | some raw =>
      match GetMasterIP nodeName raw with
      | .indexOutOfRange => .panicked
      | .notFound => .respond 500 false
      | .ok _ =>
        if env.storeOk = false then .respond 500 false
        else .respond 200 true

/-- `ProvisionHandler` (`handlers.go`, lines 23–110), tracking the file
system through staging. Each `defer os.Remove` of the source runs on every
exit path reached after its registration (Go defers run LIFO, also during
a panic unwind), so every return past the staging of both files — success,
error or panic — goes through both removals; body parsing is outside the
model. -/
def ProvisionHandler (nodeType : String) (request : ProvisionRequest)
    (env : ProvisionEnv) (file : Option (List (List String))) (fs : FS) :
    HandlerOutcome × FS :=
  match validateProvisionRequest request nodeType file with
  | .error _ => (.respond 400 false, fs)
  | .ok _ =>
    match WriteTempFile env.configPath env.configOutcome fs with
    | (none, fs1) => (.respond 500 false, fs1)
    | (some configFileName, fs1) =>
      match WriteTempFile env.manifestPath env.manifestOutcome fs1 with
      | (none, fs2) => (.respond 500 false, fsRemove configFileName fs2)
      | (some manifestFileName, fs2) =>
        (provisionTail request.nodeName env,
         fsRemove configFileName (fsRemove manifestFileName fs2))

/-! ### Helper lemmas (shared; not claim theorems) -/

/-- The validator loop succeeds exactly when some record carries the
masterIP at column 2 and the token at column 4. -/
theorem scanRecords_eq_true_iff (token masterIP : String)
    (records : List (List String)) :
    scanRecords token masterIP records = true ↔
      ∃ record ∈ records,
        record[2]? = some masterIP ∧ record[4]? = some token := by
  induction records with
  | nil => simp [scanRecords]
  | cons r rest ih =>
    by_cases h2 : r[2]? = some masterIP
    · by_cases h4 : r[4]? = some token
      · simp [scanRecords, h2, h4]
      · simp [scanRecords, h2, h4, ih]
    · simp [scanRecords, h2, ih]

/-- Appending to a non-empty table writes no header. -/
theorem storeProvisionInfo_nonempty (r : ProvisionRecord)
    (t : List (List String)) (ht : t ≠ []) :
    StoreProvisionInfo r.nodeName r.nodeUID r.masterIP r.nodeType r.token t =
      t ++ [toRow r] := by
  simp [StoreProvisionInfo, toRow, List.isEmpty_iff, ht]

/-- Iterated appends to a non-empty table just extend it, in order. -/
theorem storeAll_nonempty (rs : List ProvisionRecord) :
    ∀ t : List (List String), t ≠ [] → storeAll rs t = t ++ rs.map toRow := by
  induction rs with
  | nil => intro t _; simp [storeAll]
  | cons r rest ih =>
    intro t ht
    have h1 : storeAll (r :: rest) t =
        storeAll rest (StoreProvisionInfo r.nodeName r.nodeUID r.masterIP r.nodeType r.token t) := rfl
    rw [h1, storeProvisionInfo_nonempty r t ht, ih (t ++ [toRow r]) (by simp)]
    simp

/-! ### Claim theorems -/

/-- C1: IP discovery. The claim says a matching line yields field index 12
only when the field count is at least 13, and a shorter line yields no
match with no out-of-bounds access. The source guards with
`len(fields) >= 12` and then evaluates `fields[12]`, so a matching line
with exactly 12 whitespace-delimited fields makes the Go code panic with an
index-out-of-range instead of yielding no match; with 13 fields both agree
on returning field index 12. -/
theorem getMasterIP_twelve_field_line_panics :
    GetMasterIP "m1" "m1 a b c d e f g h i j k" = .indexOutOfRange ∧
    GetMasterIP "m1" "m1 a b c d e f g h i j k l" = .ok "l" := by
  constructor <;> rfl

/-- C2: the two validation variants compute different functions. On the
single-row table `[n, u, ip, t3, t4]` with input token `t4` and masterIP
`ip`, `ValidateTokenAndMasterIP` (`handlers.go`, token at column index 4)
returns `true` while `validateTokenAndMasterIP` (`main.go`, token at column
index 3) returns `false`; the `handlers.go` variant is the one comparing
against column index 4, which the specification adopts. -/
theorem validate_variants_differ :
    ValidateTokenAndMasterIP "t4" "ip" (some [["n", "u", "ip", "t3", "t4"]]) = true ∧
    validateTokenAndMasterIP "t4" "ip" (some [["n", "u", "ip", "t3", "t4"]]) = false := by
  constructor <;> rfl

/-- C4: `ValidateTokenAndMasterIP` returns `false` (not an error) on an
absent table, and on a present table returns `true` iff some row carries
the given masterIP at column index 2 and the given token at column index 4
(`record[i]? = some x` is exactly `len(record) > i` with `record[i] = x`,
so any such row has at least 5 columns). -/
theorem validateTokenAndMasterIP_spec (token masterIP : String) :
    ValidateTokenAndMasterIP token masterIP none = false ∧
    ∀ records : List (List String),
      (ValidateTokenAndMasterIP token masterIP (some records) = true ↔
        ∃ record ∈ records,
          record[2]? = some masterIP ∧ record[4]? = some token) := by
  refine ⟨rfl, fun records => ?_⟩
  simpa [ValidateTokenAndMasterIP] using scanRecords_eq_true_iff token masterIP records

/-- C3 counterexample: the claim also asserts that a mismatched token for
the same masterIP is rejected, but the header row defeats it. Append
R = {n, u, MasterIP, _, x} to the empty table and query the mismatched
token `Token` (≠ `x`) with R's masterIP `MasterIP`: the lookup returns
`true`, because the header row itself has `MasterIP` at column 2 and
`Token` at column 4. -/
theorem store_validate_mismatch_counterexample :
    ValidateTokenAndMasterIP "Token" "MasterIP"
        (some (StoreProvisionInfo "n" "u" "MasterIP" "" "x" [])) = true ∧
    ("Token" : String) ≠ "x" := by
  exact ⟨rfl, by decide⟩

/-- C3 amended: appending R to the initially empty table and then looking up
(R.masterIP, R.token) returns `true`; looking up a mismatched token for the
same masterIP returns `false`, provided the mismatched query is not the
header-row pair (masterIP = MasterIP with token = Token), which the scan
also matches. -/
theorem store_validate_roundtrip (R : ProvisionRecord) (badToken : String)
    (hne : badToken ≠ R.token)
    (hhdr : ¬(R.masterIP = "MasterIP" ∧ badToken = "Token")) :
    ValidateTokenAndMasterIP R.token R.masterIP
        (some (StoreProvisionInfo R.nodeName R.nodeUID R.masterIP R.nodeType R.token [])) = true ∧
    ValidateTokenAndMasterIP badToken R.masterIP
        (some (StoreProvisionInfo R.nodeName R.nodeUID R.masterIP R.nodeType R.token [])) = false := by
  constructor
  · rw [ValidateTokenAndMasterIP, scanRecords_eq_true_iff]
    refine ⟨toRow R, ?_, rfl, rfl⟩
    simp [StoreProvisionInfo, toRow]
  · rw [ValidateTokenAndMasterIP]
    simp only [StoreProvisionInfo, List.isEmpty_nil, if_pos, List.singleton_append]
    have h2 : ¬(R.token = badToken) := fun h => hne h.symm
    by_cases hM : R.masterIP = "MasterIP"
    · have hT : badToken ≠ "Token" := fun hbad => hhdr ⟨hM, hbad⟩
      have h1 : ¬(("Token" : String) = badToken) := fun h => hT h.symm
      simp [scanRecords, csvHeaders, hM, h1, h2]
    · have h3 : ¬(("MasterIP" : String) = R.masterIP) := fun h => hM h.symm
      simp [scanRecords, csvHeaders, h3, h2]

/-- C3 witness: the amended round-trip at the concrete record
{n, u, ip, master, tok} and mismatched token `bad`. -/
theorem store_validate_roundtrip_witness :
    ("bad" : String) ≠ "tok" ∧
    ValidateTokenAndMasterIP "tok" "ip"
        (some (StoreProvisionInfo "n" "u" "ip" "master" "tok" [])) = true ∧
    ValidateTokenAndMasterIP "bad" "ip"
        (some (StoreProvisionInfo "n" "u" "ip" "master" "tok" [])) = false := by
  refine ⟨by decide, ?_⟩
  exact store_validate_roundtrip ⟨"n", "u", "ip", "master", "tok"⟩ "bad"
    (by decide) (by decide)

/-- C5: header-once invariant. Appending N ≥ 1 records to the initially
empty (or absent) table yields exactly the header row followed by the N
data rows in append order: no later append writes a second header row or
changes an existing row. -/
theorem header_once (rs : List ProvisionRecord) (h : rs ≠ []) :
    storeAll rs [] = csvHeaders :: rs.map toRow := by
  cases rs with
  | nil => exact absurd rfl h
  | cons r rest =>
    have h1 : storeAll (r :: rest) [] = storeAll rest [csvHeaders, toRow r] := rfl
    rw [h1, storeAll_nonempty rest [csvHeaders, toRow r] (by simp)]
    simp

/-- C5 witness: two concrete records appended to the empty table. -/
theorem header_once_witness :
    ([⟨"a", "b", "c", "d", "e"⟩, ⟨"f", "g", "h", "i", "j"⟩] : List ProvisionRecord) ≠ [] ∧
    storeAll [⟨"a", "b", "c", "d", "e"⟩, ⟨"f", "g", "h", "i", "j"⟩] [] =
      csvHeaders ::
        ([⟨"a", "b", "c", "d", "e"⟩, ⟨"f", "g", "h", "i", "j"⟩] : List ProvisionRecord).map toRow := by
  refine ⟨by decide, ?_⟩
  exact header_once [⟨"a", "b", "c", "d", "e"⟩, ⟨"f", "g", "h", "i", "j"⟩] (by decide)

/-- C6: provision validation. `validateProvisionRequest` succeeds exactly
when nodeName and nodeUID are non-empty and, whenever the handler's
nodeType is `worker`, the request's masterIP is non-empty, its nodeType
field literally equals `worker`, and the ledger lookup
`ValidateTokenAndMasterIP(token, masterIP)` returns true; in particular it
fails whenever nodeName or nodeUID is empty, regardless of nodeType. -/
theorem validateProvisionRequest_spec (request : ProvisionRequest)
    (nodeType : String) (file : Option (List (List String))) :
    validateProvisionRequest request nodeType file = .ok () ↔
      (request.nodeName ≠ "" ∧ request.nodeUID ≠ "" ∧
        (nodeType = "worker" →
          request.masterIP ≠ "" ∧ request.nodeType = "worker" ∧
          ValidateTokenAndMasterIP request.token request.masterIP file = true)) := by
  unfold validateProvisionRequest
  split_ifs with h1 h2 h3
  · simp only [reduceCtorEq, false_iff]
    tauto
  · simp only [reduceCtorEq, false_iff]
    tauto
  · simp only [reduceCtorEq, false_iff]
    intro ⟨ha, hb, hw⟩
    exact absurd ((hw h3.1).2.2) (by simp [h3.2])
  · simp only [true_iff]
    push_neg at h1 h2 h3
    refine ⟨h1.1, h1.2, fun hw => ⟨h2 hw |>.1, h2 hw |>.2, ?_⟩⟩
    cases hb : ValidateTokenAndMasterIP request.token request.masterIP file
    · exact absurd hb (h3 hw)
    · rfl

/-- C7: manifest builder defaulting. The built manifest has the fixed
apiVersion and kind, metadata from the request, cpus defaulted to 2 unless
positive, diskSize/memory/image defaulted on the empty string, and ssh
taken verbatim; `createManifest` is a total Lean function, so the builder
never fails on a well-typed request. -/
theorem createManifest_defaults (request : ProvisionRequest) :
    (createManifest request).apiVersion = "ignite.weave.works/v1alpha4" ∧
    (createManifest request).kind = "VM" ∧
    (createManifest request).metadata = ⟨request.nodeName, request.nodeUID⟩ ∧
    (createManifest request).spec.cpus =
      (if 0 < request.cpus then request.cpus else 2) ∧
    (createManifest request).spec.diskSize =
      (if request.diskSize = "" then "3GB" else request.diskSize) ∧
    (createManifest request).spec.memory =
      (if request.memory = "" then "1GB" else request.memory) ∧
    (createManifest request).spec.image =
      [("oci", if request.imageOCI = ""
        then "shajalahamedcse/only-k3-go:v1.0.10" else request.imageOCI)] ∧
    (createManifest request).spec.copyFiles = [] ∧
    (createManifest request).spec.ssh = request.enableSSH := by
  refine ⟨rfl, rfl, rfl, ?_, rfl, rfl, rfl, rfl, rfl⟩
  show (if request.cpus ≤ 0 then 2 else request.cpus) =
    (if 0 < request.cpus then request.cpus else 2)
  split_ifs with ha hb hb <;> omega

/-- Removing both staged paths makes both absent, whatever the state. -/
theorem fsRemove_pair (a b : String) (f : FS) :
    fsRemove a (fsRemove b f) a = false ∧ fsRemove a (fsRemove b f) b = false := by
  constructor
  · simp [fsRemove]
  · by_cases h : b = a <;> simp [fsRemove, h]

/-- C8: staging cleanup. For every request, oracle environment and initial
storage in which the two fresh temp paths do not yet exist, after the
handler finishes — success, any failure (validation, staging partial
write, provisioner error, IP-discovery error or panic, record-append
error) — neither the staged config file nor the staged manifest file
exists. -/
theorem staging_cleanup (nodeType : String) (request : ProvisionRequest)
    (env : ProvisionEnv) (file : Option (List (List String))) (fs : FS)
    (hc : fs env.configPath = false) (hm : fs env.manifestPath = false) :
    (ProvisionHandler nodeType request env file fs).2 env.configPath = false ∧
    (ProvisionHandler nodeType request env file fs).2 env.manifestPath = false := by
  obtain ⟨cp, co, mp, mo, ig, ps, st⟩ := env
  simp only at hc hm ⊢
  unfold ProvisionHandler
  cases validateProvisionRequest request nodeType file with
  | error e => exact ⟨hc, hm⟩
  | ok u =>
    cases u
    cases co <;> cases mo <;>
      simp only [WriteTempFile] <;>
      first
        | exact ⟨hc, hm⟩
        | exact fsRemove_pair cp mp _
        | (refine ⟨?_, ?_⟩ <;>
            (simp only [fsRemove, fsCreate]; split_ifs <;> simp_all))

/-- C8 witness: a concrete successful run (master request, both stagings
succeed, ignite run succeeds, a 13-field ps line, ledger append succeeds)
from a storage holding neither staged path. -/
theorem staging_cleanup_witness :
    ((fun _ => false : FS) "cfg") = false ∧
    ((fun _ => false : FS) "man") = false ∧
    ((ProvisionHandler "master" ⟨"m1", "u1", "", "", "", 0, "", "", "", false⟩
        ⟨"cfg", .ok, "man", .ok, true, some "m1 a b c d e f g h i j k l", true⟩
        none (fun _ => false)).2 "cfg" = false ∧
      (ProvisionHandler "master" ⟨"m1", "u1", "", "", "", 0, "", "", "", false⟩
        ⟨"cfg", .ok, "man", .ok, true, some "m1 a b c d e f g h i j k l", true⟩
        none (fun _ => false)).2 "man" = false) :=
  ⟨rfl, rfl,
    staging_cleanup "master" ⟨"m1", "u1", "", "", "", 0, "", "", "", false⟩
      ⟨"cfg", .ok, "man", .ok, true, some "m1 a b c d e f g h i j k l", true⟩
      none (fun _ => false) rfl rfl⟩

/-- C9: deletion workflow. An empty name yields the 400 validation reply
with no adapter call; with a non-empty name, a stop failure ends the
workflow at 500 with an error detail starting with the text
`Failed to stop VM:` (here given exactly: the handler prefix plus the
wrapped `RunIgniteCommand` error) and `rm` never invoked; a stop success
followed by an rm failure ends at 500 after both calls; two successes
yield the success reply with the documented message. The effect trace
contains only the two ignite commands — never a ledger read or write, so
deleted VMs remain in the ledger. -/
theorem deleteVMHandler_spec (vmName : String) (stopOk rmOk : Bool)
    (stopCause rmCause : String) :
    (vmName = "" →
      DeleteVMHandler vmName stopOk rmOk stopCause rmCause =
        ({ status := 400, success := false, message := ""
           errorDetail := "VM name is required" }, [])) ∧
    (vmName ≠ "" → stopOk = false →
      DeleteVMHandler vmName stopOk rmOk stopCause rmCause =
        ({ status := 500, success := false, message := ""
           errorDetail := "Failed to stop VM: " ++ ("Failed to stop VM: " ++ stopCause) },
         [.igniteCmd "stop" vmName])) ∧
    (vmName ≠ "" → stopOk = true → rmOk = false →
      DeleteVMHandler vmName stopOk rmOk stopCause rmCause =
        ({ status := 500, success := false, message := ""
           errorDetail := "Failed to remove VM: " ++ ("Failed to rm VM: " ++ rmCause) },
         [.igniteCmd "stop" vmName, .igniteCmd "rm" vmName])) ∧
    (vmName ≠ "" → stopOk = true → rmOk = true →
      DeleteVMHandler vmName stopOk rmOk stopCause rmCause =
        ({ status := 200, success := true
           message := "VM '" ++ vmName ++ "' successfully deleted", errorDetail := "" },
         [.igniteCmd "stop" vmName, .igniteCmd "rm" vmName])) ∧
    (∀ e ∈ (DeleteVMHandler vmName stopOk rmOk stopCause rmCause).2,
      e = .igniteCmd "stop" vmName ∨ e = .igniteCmd "rm" vmName) := by
  by_cases h : vmName = "" <;> cases stopOk <;> cases rmOk <;>
    simp [DeleteVMHandler, RunIgniteCommand, h]

/-- C9 witness: deleting `missing-vm` when stop fails with `exit status 1`:
a 500 reply whose error detail starts with `Failed to stop VM:`, with rm
never invoked. -/
theorem deleteVMHandler_spec_witness :
    DeleteVMHandler "missing-vm" false true "exit status 1" "" =
      ({ status := 500, success := false, message := ""
         errorDetail := "Failed to stop VM: " ++ ("Failed to stop VM: " ++ "exit status 1") },
       [.igniteCmd "stop" "missing-vm"]) :=
  (deleteVMHandler_spec "missing-vm" false true "exit status 1" "").2.1
    (by decide) rfl

/-- C10 (implicit): the header row authenticates. The validator scans every
CSV row including the header, whose column 2 is `MasterIP` and column 4 is
`Token`; so on any table beginning with the header row a worker request
carrying masterIP `MasterIP` and token `Token` (with non-empty name and
uid) passes the lookup and provision validation succeeds, with no
provisioned node carrying those values. -/
theorem header_row_authenticates (rest : List (List String))
    (request : ProvisionRequest)
    (hname : request.nodeName ≠ "") (huid : request.nodeUID ≠ "")
    (htype : request.nodeType = "worker")
    (hip : request.masterIP = "MasterIP") (htok : request.token = "Token") :
    ValidateTokenAndMasterIP request.token request.masterIP
        (some (csvHeaders :: rest)) = true ∧
    validateProvisionRequest request "worker" (some (csvHeaders :: rest)) = .ok () := by
  have hval : ValidateTokenAndMasterIP request.token request.masterIP
      (some (csvHeaders :: rest)) = true := by
    rw [hip, htok]
    simp [ValidateTokenAndMasterIP, scanRecords, csvHeaders]
  refine ⟨hval, ?_⟩
  have hmp : request.masterIP ≠ "" := by simp [hip]
  simp [validateProvisionRequest, hname, huid, htype, hmp, hval]

/-- C10 witness: the concrete worker request {w1, u1, worker, Token,
MasterIP} against the header-only table. -/
theorem header_row_authenticates_witness :
    (("w1" : String) ≠ "") ∧
    (ValidateTokenAndMasterIP "Token" "MasterIP" (some (csvHeaders :: [])) = true ∧
      validateProvisionRequest
        ⟨"w1", "u1", "worker", "Token", "MasterIP", 0, "", "", "", false⟩
        "worker" (some (csvHeaders :: [])) = .ok ()) :=
  ⟨by decide,
    header_row_authenticates []
      ⟨"w1", "u1", "worker", "Token", "MasterIP", 0, "", "", "", false⟩
      (by decide) (by decide) rfl rfl rfl⟩
